import Mathlib

/-!
Shallow embedding of the wikipedia chatbot `a10.py`: the segment matcher,
the pattern-action dispatcher, the fact-extraction glue and the query loop.
External collaborators (wikipedia search, HTML rendering, BeautifulSoup
infobox selection, the `re` regex engine) are modelled as components of an
explicit environment `Env`; everything written in the file itself is a
direct translation of the corresponding Python function.
-/

/-- Python exceptions relevant to the control flow of `a10.py`. -/
inductive Exc where
  | keyboardInterrupt : Exc
  | eofError : Exc
  | lookupError : String → Exc
  | attributeError : String → Exc
  | indexError : Exc

deriving instance DecidableEq, Repr for Exc

/-- Model of a Python `re.Match` object: lookup of a (named or numbered)
capture group.  Numbered groups are accessed through their decimal name. -/
structure Mat where
  group : String → String

/-- Environment of external collaborators: `wikipedia.search`,
`WikipediaPage(...).html()`, BeautifulSoup's `find_all(class_="infobox")`
(the list of infobox texts of a given html document), and
`re.compile(pattern, DOTALL | IGNORECASE).search(text)`. -/
structure Env where
  search_results : String → List String
  page_html : String → String
  infobox_texts : String → List String
  re_search : String → String → Option Mat

/-- Modelled from the spec: `a10.py` imports `match` from `match.py`, a file
of this repository that is not among the provided sources.  Following §4.1
of the specification: an empty pattern matches only the empty token list;
a literal pattern token must equal the first token; a wildcard token `"%"`
consumes at least one token, trying the shortest viable split first, and the
captures of all wildcards are concatenated in order of appearance. -/
def match_tokens : List String → List String → Option (List String)
  | [], [] => some []
  | [], _ :: _ => none
  | _ :: _, [] => none
  | p :: ps, t :: ts =>
    if p = "%" then
      match match_tokens ps ts with
      | some caps => some (t :: caps)
      | none =>
        match match_tokens (p :: ps) ts with
        | some caps => some (t :: caps)
        | none => none
    else if p = t then match_tokens ps ts else none

/-- Membership of a character in Python's `string.printable`:
codepoints 32–126 together with `\t`, `\n`, `\x0b`, `\x0c`, `\r` (9–13). -/
def printable (c : Char) : Bool :=
  (32 ≤ c.toNat && c.toNat ≤ 126) || (9 ≤ c.toNat && c.toNat ≤ 13)

/-- Effect of Python's `re.sub(c+, c, s)` for a single character `c`:
every maximal run of `c` is collapsed to a single `c`. -/
def collapse_runs (c : Char) : List Char → List Char
  | [] => []
  | [a] => [a]
  | a :: b :: rest =>
    if a = c ∧ b = c then collapse_runs c (b :: rest)
    else a :: collapse_runs c (b :: rest)

/-- The `only_ascii` step of `clean_text`: each character outside
`string.printable` is replaced by a space. -/
def only_ascii (s : List Char) : List Char :=
  s.map fun c => if printable c then c else ' '

/-- Translation of `clean_text`: replace non-printable characters by spaces,
then collapse runs of spaces, then collapse runs of newlines. -/
def clean_text (text : String) : String :=
  String.mk (collapse_runs '\n' (collapse_runs ' ' (only_ascii text.data)))

/-- Reading of the specification sentence "strips non-printable characters,
collapses repeated spaces to one, collapses repeated newlines to one":
non-printable characters are removed (not replaced by spaces). -/
def clean_text_spec (text : String) : String :=
  String.mk (collapse_runs '\n' (collapse_runs ' ' (text.data.filter fun c => printable c)))

/-- Translation of `get_page_html`: `wikipedia.search(title)[0]` raises
`IndexError` when the search returns no results. -/
def get_page_html (env : Env) (title : String) : Except Exc String :=
  match env.search_results title with
  | [] => Except.error Exc.indexError
  | r :: _ => Except.ok (env.page_html r)

/-- Translation of `get_first_infobox_text`: raises
`LookupError("Page has no infobox")` when the page has no infobox. -/
def get_first_infobox_text (env : Env) (html : String) : Except Exc String :=
  match env.infobox_texts html with
  | [] => Except.error (Exc.lookupError "Page has no infobox")
  | t :: _ => Except.ok t

/-- Translation of `get_match`: raises `AttributeError(error_text)` when the
compiled pattern does not match the text. -/
def get_match (env : Env) (text : String) (pattern : String) (error_text : String) : Except Exc Mat :=
  match env.re_search pattern text with
  | none => Except.error (Exc.attributeError error_text)
  | some m => Except.ok m

/-- Regex of `get_polar_radius`. -/
def radius_pattern : String :=
  "(?:Polar radius.*?)(?: ?[\\d]+ )?(?P<radius>[\\d,.]+)(?:.*?)km"

/-- Regex of `get_birth_date`. -/
def birth_pattern : String :=
  "(?:Born\\D*)(?P<birth>\\d\x7b4\x7d-\\d\x7b2\x7d-\\d\x7b2\x7d)"

/-- Regex of `get_population`. -/
def population_pattern : String :=
  "(?:Population.*?)(?P<population>[\\d,]+)(?:.*?)\\s*people"

/-- Regex of `get_official_language`. -/
def language_pattern : String :=
  "(?:Official\\s*languages.*?)(?P<languages>[\\w\\s,/-]+)(?:.*?)\\n"

/-- Regex of `get_birth_place`. -/
def birth_place_pattern : String :=
  "in\\s*([A-Za-z\\s]+),\\s*([A-Za-z\\s]+)"

/-- Translation of `get_polar_radius`. -/
def get_polar_radius (env : Env) (planet_name : String) : Except Exc String := do
  let html ← get_page_html env planet_name
  let ib ← get_first_infobox_text env html
  let m ← get_match env (clean_text ib) radius_pattern "Page infobox has no polar radius information"
  pure (m.group "radius")

/-- Translation of `get_birth_date`. -/
def get_birth_date (env : Env) (name : String) : Except Exc String := do
  let html ← get_page_html env name
  let ib ← get_first_infobox_text env html
  let m ← get_match env (clean_text ib) birth_pattern "Page infobox has no birth information (at least none in xxxx-xx-xx format)"
  pure (m.group "birth")

/-- Translation of `get_population`. -/
def get_population (env : Env) (location_name : String) : Except Exc String := do
  let html ← get_page_html env location_name
  let ib ← get_first_infobox_text env html
  let m ← get_match env (clean_text ib) population_pattern "Page infobox has no population information"
  pure (m.group "population")

/-- Translation of `get_official_language`. -/
def get_official_language (env : Env) (country_name : String) : Except Exc String := do
  let html ← get_page_html env country_name
  let ib ← get_first_infobox_text env html
  let m ← get_match env (clean_text ib) language_pattern "Page infobox has no official language information"
  pure (m.group "languages")

/-- Translation of `get_birth_place`; the two numbered groups of the regex
are accessed through their decimal names. -/
def get_birth_place (env : Env) (name : String) : Except Exc String := do
  let html ← get_page_html env name
  let ib ← get_first_infobox_text env html
  let m ← get_match env (clean_text ib) birth_place_pattern "Page infobox has no birth place information"
  pure ((m.group "1").trim ++ ", " ++ (m.group "2").trim)

/-- Translation of the `birth_date` action. -/
def birth_date (env : Env) (ms : List String) : Except Exc (List String) := do
  let d ← get_birth_date env (String.intercalate " " ms)
  pure [d]

/-- Translation of the `polar_radius` action; `matches[0]` raises
`IndexError` on an empty list. -/
def polar_radius (env : Env) (ms : List String) : Except Exc (List String) :=
  match ms with
  | [] => Except.error Exc.indexError
  | m :: _ => do
    let r ← get_polar_radius env m
    pure [r]

/-- Translation of the `population` action. -/
def population (env : Env) (ms : List String) : Except Exc (List String) := do
  let p ← get_population env (String.intercalate " " ms)
  pure [p]

/-- Translation of the `official_language` action. -/
def official_language (env : Env) (ms : List String) : Except Exc (List String) := do
  let l ← get_official_language env (String.intercalate " " ms)
  pure [l]

/-- Translation of the `birth_place` action. -/
def birth_place (env : Env) (ms : List String) : Except Exc (List String) := do
  let b ← get_birth_place env (String.intercalate " " ms)
  pure [b]

/-- Translation of `bye_action`: raises `KeyboardInterrupt`. -/
def bye_action (_dummy : List String) : Except Exc (List String) :=
  Except.error Exc.keyboardInterrupt

/-- Translation of `pa_list`.  The first two patterns are written in the
source as `"when was % born".split()` and
`"what is the polar radius of %".split()`; the token lists are spelled out
here. -/
def pa_list (env : Env) : List (List String × (List String → Except Exc (List String))) :=
  [(["when", "was", "%", "born"], birth_date env),
   (["what", "is", "the", "polar", "radius", "of", "%"], polar_radius env),
   (["bye"], bye_action)]

/-- Translation of `search_pa_list`, generic in the table it walks (the
Python function reads the global `pa_list`). -/
def search_pa_list : List (List String × (List String → Except Exc (List String))) → List String → Except Exc (List String)
  | [], _ => Except.ok ["I don\x27t understand"]
  | (pat, act) :: rest, src =>
    match match_tokens pat src with
    | some mat =>
      match act mat with
      | Except.ok answer => Except.ok (if answer = [] then ["No answers"] else answer)
      | Except.error e => Except.error e
    | none => search_pa_list rest src

/-- Whitespace in the sense of Python's `str.split()` with no argument. -/
def is_py_space (c : Char) : Bool :=
  c = ' ' || c = '\t' || c = '\n' || c = '\r' || c = '\x0b' || c = '\x0c'

/-- Splitting a character list on runs of whitespace, discarding empty
words, as Python's `str.split()` does; `cur` accumulates the current word
in reverse. -/
def split_words : List Char → List Char → List (List Char)
  | cur, [] => if cur = [] then [] else [cur.reverse]
  | cur, c :: cs =>
    if is_py_space c then
      if cur = [] then split_words [] cs
      else cur.reverse :: split_words [] cs
    else split_words (c :: cur) cs

/-- Translation of the normalization in the query loop:
`input(...).replace("?", "").lower().split()`. -/
def normalize_query (line : String) : List String :=
  (split_words [] ((line.data.filter fun c => c ≠ '?').map Char.toLower)).map String.mk

/-- Result of a run of the query loop on a finite list of input lines:
the printed answer lines (with the banner and the farewell), and the
uncaught exception if the run ended in one. -/
structure LoopResult where
  out : List String
  crash : Option Exc

deriving instance DecidableEq, Repr for LoopResult

/-- Farewell line printed by `query_loop` after its `while` loop. -/
def farewell : String := "\nSo long!\n"

/-- Banner printed by `query_loop` before its `while` loop. -/
def welcome : String := "Welcome to the movie database!\n"

/-- Translation of the body of `query_loop`: each line is normalized and
dispatched; `KeyboardInterrupt` and `EOFError` are caught and break the
loop (the farewell is printed); any other exception propagates and aborts
the run.  Exhaustion of the input lines makes `input()` raise `EOFError`. -/
def query_loop_aux (dispatch : List String → Except Exc (List String)) : List String → LoopResult
  | [] => ⟨[farewell], none⟩
  | line :: rest =>
    match dispatch (normalize_query line) with
    | Except.ok answers =>
      let r := query_loop_aux dispatch rest
      ⟨answers ++ r.out, r.crash⟩
    | Except.error Exc.keyboardInterrupt => ⟨[farewell], none⟩
    | Except.error Exc.eofError => ⟨[farewell], none⟩
    | Except.error e => ⟨[], some e⟩

/-- Translation of `query_loop`: banner, then the loop over the input
lines, dispatching through the program's `pa_list`. -/
def query_loop (env : Env) (input_lines : List String) : LoopResult :=
  let r := query_loop_aux (search_pa_list (pa_list env)) input_lines
  ⟨welcome :: r.out, r.crash⟩

/-- Environment in which every page search succeeds, every page has one
infobox, and no regex ever matches: every extraction fails with
`AttributeError`. -/
def no_match_env : Env :=
  ⟨fun _ => ["page"], fun _ => "html", fun _ => ["infobox"], fun _ _ => none⟩

/-- Variant of `no_match_env` whose regex engine answers only the
population regex. -/
def pop_env : Env :=
  { no_match_env with
    re_search := fun p _ => if p = population_pattern then some ⟨fun _ => "42"⟩ else none }

/-- Entries whose patterns do not match the source are skipped by the
dispatcher. -/
theorem search_pa_list_append_none (t1 t2 : List (List String × (List String → Except Exc (List String)))) (src : List String)
    (h : ∀ pr ∈ t1, match_tokens pr.1 src = none) :
    search_pa_list (t1 ++ t2) src = search_pa_list t2 src := by
  induction t1 with
  | nil => rfl
  | cons hd tl ih =>
    obtain ⟨pat, act⟩ := hd
    have h0 : match_tokens pat src = none := h (pat, act) (List.mem_cons_self _ _)
    show search_pa_list ((pat, act) :: (tl ++ t2)) src = _
    rw [search_pa_list, h0]
    exact ih fun pr hpr => h pr (List.mem_cons_of_mem _ hpr)

/-- C2: on a token list matched by no pattern of the action table, the
dispatcher returns exactly the sentinel, without raising. -/
theorem c2_unmatched_sentinel (env : Env) (src : List String)
    (h : ∀ pr ∈ pa_list env, match_tokens pr.1 src = none) :
    search_pa_list (pa_list env) src = Except.ok ["I don\x27t understand"] := by
  have hall : search_pa_list (pa_list env ++ []) src = search_pa_list [] src :=
    search_pa_list_append_none (pa_list env) [] src h
  rw [List.append_nil] at hall
  rw [hall]
  rfl

/-- Witness for C2: a concrete unmatched query. -/
theorem c2_unmatched_sentinel_witness :
    search_pa_list (pa_list no_match_env) ["hello", "there"] = Except.ok ["I don\x27t understand"] :=
  c2_unmatched_sentinel no_match_env ["hello", "there"] (by decide)

/-- C3: when an entry of the table is the first to match, an empty answer
list from its handler is replaced by the sentinel and a non-empty one is
returned unmodified. -/
theorem c3_answer_sentinels (t1 t2 : List (List String × (List String → Except Exc (List String))))
    (pat : List String) (act : List String → Except Exc (List String))
    (src mat : List String)
    (h1 : ∀ pr ∈ t1, match_tokens pr.1 src = none)
    (h2 : match_tokens pat src = some mat) :
    (act mat = Except.ok [] → search_pa_list (t1 ++ (pat, act) :: t2) src = Except.ok ["No answers"]) ∧
    (∀ ans, ans ≠ [] → act mat = Except.ok ans → search_pa_list (t1 ++ (pat, act) :: t2) src = Except.ok ans) := by
  rw [search_pa_list_append_none t1 _ src h1]
  constructor
  · intro ha
    simp [search_pa_list, h2, ha]
  · intro ans hne ha
    simp only [search_pa_list, h2, ha]
    simp [hne]

/-- Witness for C3: concrete one-entry tables, one handler answering with
the empty list and one with a non-empty list. -/
theorem c3_answer_sentinels_witness :
    search_pa_list [(["a"], fun _ => Except.ok ([] : List String))] ["a"] = Except.ok ["No answers"] ∧
    search_pa_list [(["a"], fun _ => Except.ok ["x"])] ["a"] = Except.ok ["x"] := by
  constructor
  · exact (c3_answer_sentinels [] [] ["a"] (fun _ => Except.ok []) ["a"] []
      (by intro pr hpr; cases hpr) rfl).1 rfl
  · exact (c3_answer_sentinels [] [] ["a"] (fun _ => Except.ok ["x"]) ["a"] []
      (by intro pr hpr; cases hpr) rfl).2 ["x"] (by decide) rfl

/-- C4: the dispatcher's result on a table is the result of its earliest
matching entry alone; later entries (matching or not) are never invoked. -/
theorem c4_first_match_wins (t1 t2 : List (List String × (List String → Except Exc (List String))))
    (pat : List String) (act : List String → Except Exc (List String)) (src : List String)
    (h1 : ∀ pr ∈ t1, match_tokens pr.1 src = none)
    (h2 : (match_tokens pat src).isSome) :
    search_pa_list (t1 ++ (pat, act) :: t2) src = search_pa_list [(pat, act)] src := by
  rw [search_pa_list_append_none t1 _ src h1]
  obtain ⟨mat, hm⟩ := Option.isSome_iff_exists.mp h2
  rw [search_pa_list, hm, search_pa_list, hm]

/-- Witness for C4: both entries match, only the first one answers. -/
theorem c4_first_match_wins_witness :
    search_pa_list [(["a"], fun _ => Except.ok ["first"]), (["%"], fun _ => Except.ok ["second"])] ["a"]
      = search_pa_list [(["a"], fun _ => Except.ok ["first"])] ["a"] ∧
    search_pa_list [(["a"], fun _ => Except.ok ["first"])] ["a"] = Except.ok ["first"] := by
  constructor
  · exact c4_first_match_wins [] [(["%"], fun _ => Except.ok ["second"])] ["a"]
      (fun _ => Except.ok ["first"]) ["a"] (by intro pr hpr; cases hpr) (by decide)
  · rfl

/-- C5: a pattern without a wildcard matches exactly the token lists equal
to it, with an empty capture. -/
theorem c5_no_wildcard_exact (pattern tokens : List String) (h : "%" ∉ pattern) :
    match_tokens pattern tokens = if tokens = pattern then some [] else none := by
  induction pattern generalizing tokens with
  | nil => cases tokens <;> simp [match_tokens]
  | cons p ps ih =>
    have hp : ¬(p = "%") := fun hh => h (hh ▸ List.mem_cons_self p ps)
    have hps : "%" ∉ ps := fun hh => h (List.mem_cons_of_mem p hh)
    cases tokens with
    | nil => simp [match_tokens]
    | cons t ts =>
      rw [match_tokens, if_neg hp]
      by_cases ht : p = t
      · subst ht
        rw [if_pos rfl, ih ts hps]
        by_cases hts : ts = ps <;> simp [hts]
      · rw [if_neg ht]
        have : ¬(t :: ts = p :: ps) := by
          intro hh
          exact ht (List.cons.inj hh).1.symm
        rw [if_neg this]

/-- Witness for C5: a wildcard-free pattern on equal and on different
token lists. -/
theorem c5_no_wildcard_exact_witness :
    match_tokens ["good", "day"] ["good", "day"] = some [] ∧
    match_tokens ["good", "day"] ["good", "night"] = none := by
  constructor
  · rw [c5_no_wildcard_exact ["good", "day"] ["good", "day"] (by decide)]
    rfl
  · rw [c5_no_wildcard_exact ["good", "day"] ["good", "night"] (by decide)]
    rfl

/-- C6: a wildcard at the head of the pattern consumes at least one token,
so the match fails on an empty token list and a successful capture is
non-empty; in particular the single-wildcard pattern does not match the
empty token list. -/
theorem c6_wildcard_consumes_one :
    (∀ ps ts cap, match_tokens ("%" :: ps) ts = some cap → ts ≠ [] ∧ cap ≠ []) ∧
    match_tokens ["%"] ([] : List String) = none := by
  constructor
  · intro ps ts cap h
    cases ts with
    | nil => exact absurd h (by simp [match_tokens])
    | cons t ts2 =>
      refine ⟨by simp, ?_⟩
      rw [match_tokens, if_pos rfl] at h
      cases h1 : match_tokens ps ts2 with
      | some caps => rw [h1] at h; injection h with h; exact h ▸ (by simp)
      | none =>
        rw [h1] at h
        cases h2 : match_tokens ("%" :: ps) ts2 with
        | some caps => rw [h2] at h; injection h with h; exact h ▸ (by simp)
        | none => rw [h2] at h; exact absurd h (by simp)
  · rfl

/-- Witness for C6: the scenario of the specification, one token consumed. -/
theorem c6_wildcard_consumes_one_witness :
    (["ada"] : List String) ≠ [] ∧ (["ada"] : List String) ≠ [] :=
  c6_wildcard_consumes_one.1 [] ["ada"] ["ada"] rfl

/-- Absence of two adjacent copies of the character `c`. -/
def no_dup_adjacent (c : Char) : List Char → Prop
  | a :: b :: rest => ¬(a = c ∧ b = c) ∧ no_dup_adjacent c (b :: rest)
  | _ => True

/-- Dropping the head preserves `no_dup_adjacent`. -/
theorem no_dup_adjacent_tail (c a : Char) (l : List Char)
    (h : no_dup_adjacent c (a :: l)) : no_dup_adjacent c l := by
  cases l with
  | nil => trivial
  | cons b r => exact h.2

/-- Collapsing runs never changes the head of the list. -/
theorem collapse_runs_cons (c b : Char) (rest : List Char) :
    ∃ t, collapse_runs c (b :: rest) = b :: t := by
  induction rest generalizing b with
  | nil => exact ⟨[], rfl⟩
  | cons b2 r ih =>
    by_cases h : b = c ∧ b2 = c
    · obtain ⟨t, ht⟩ := ih b2
      refine ⟨t, ?_⟩
      rw [collapse_runs, if_pos h, ht, h.1, h.2]
    · exact ⟨collapse_runs c (b2 :: r), by rw [collapse_runs, if_neg h]⟩

/-- After `collapse_runs c`, no two adjacent copies of `c` remain. -/
theorem no_dup_adjacent_collapse_self (c : Char) (l : List Char) :
    no_dup_adjacent c (collapse_runs c l) := by
  induction l with
  | nil => trivial
  | cons a tl ih =>
    cases tl with
    | nil => trivial
    | cons b r =>
      by_cases h : a = c ∧ b = c
      · rw [collapse_runs, if_pos h]
        exact ih
      · rw [collapse_runs, if_neg h]
        obtain ⟨t, ht⟩ := collapse_runs_cons c b r
        rw [ht]
        rw [ht] at ih
        exact ⟨h, ih⟩

/-- `collapse_runs c` preserves the absence of adjacent duplicates of any
character. -/
theorem no_dup_adjacent_collapse_preserve (c d : Char) (l : List Char)
    (h : no_dup_adjacent d l) : no_dup_adjacent d (collapse_runs c l) := by
  induction l with
  | nil => trivial
  | cons a tl ih =>
    cases tl with
    | nil => trivial
    | cons b r =>
      by_cases hc : a = c ∧ b = c
      · rw [collapse_runs, if_pos hc]
        exact ih h.2
      · rw [collapse_runs, if_neg hc]
        obtain ⟨t, ht⟩ := collapse_runs_cons c b r
        rw [ht]
        have hbr := ih h.2
        rw [ht] at hbr
        exact ⟨h.1, hbr⟩

/-- Every character surviving `collapse_runs` was in the input. -/
theorem collapse_runs_subset (c : Char) (l : List Char) :
    ∀ x ∈ collapse_runs c l, x ∈ l := by
  induction l with
  | nil => intro x hx; exact absurd hx (by simp [collapse_runs])
  | cons a tl ih =>
    cases tl with
    | nil => intro x hx; exact hx
    | cons b r =>
      by_cases hc : a = c ∧ b = c
      · rw [collapse_runs, if_pos hc]
        intro x hx
        exact List.mem_cons_of_mem a (ih x hx)
      · rw [collapse_runs, if_neg hc]
        intro x hx
        rcases List.mem_cons.mp hx with hx | hx
        · exact hx ▸ List.mem_cons_self a (b :: r)
        · exact List.mem_cons_of_mem a (ih x hx)

/-- Counterexample to C7 as stated: `clean_text` replaces the non-printable
character by a space instead of stripping it, so it differs from the
strip-then-collapse reading of the specification. -/
theorem c7_strip_counterexample :
    clean_text "a\x00b" = "a b" ∧ clean_text_spec "a\x00b" = "ab" ∧
    clean_text "a\x00b" ≠ clean_text_spec "a\x00b" := by
  refine ⟨?_, ?_, ?_⟩ <;> decide

/-- C7 (amended): `clean_text` replaces each non-printable character by a
space, then collapses runs of spaces, then collapses runs of newlines;
consequently the result consists of printable characters only and has no
two adjacent spaces and no two adjacent newlines. -/
theorem c7_clean_text_normalizes (text : String) :
    (clean_text text).data = collapse_runs '\n' (collapse_runs ' ' (only_ascii text.data)) ∧
    (∀ c ∈ (clean_text text).data, printable c = true) ∧
    no_dup_adjacent ' ' (clean_text text).data ∧
    no_dup_adjacent '\n' (clean_text text).data := by
  refine ⟨rfl, ?_, ?_, ?_⟩
  · intro c hc
    have h1 := collapse_runs_subset '\n' (collapse_runs ' ' (only_ascii text.data)) c hc
    have h2 := collapse_runs_subset ' ' (only_ascii text.data) c h1
    obtain ⟨a, _, ha⟩ := List.mem_map.mp h2
    by_cases hp : printable a = true
    · rw [if_pos hp] at ha
      exact ha ▸ hp
    · rw [if_neg hp] at ha
      exact ha ▸ (by decide)
  · exact no_dup_adjacent_collapse_preserve '\n' ' ' _
      (no_dup_adjacent_collapse_self ' ' (only_ascii text.data))
  · exact no_dup_adjacent_collapse_self '\n' _

/-- Unfolding `Char.ofNat` on a valid codepoint. -/
theorem toNat_ofNat_valid (n : Nat) (h : n.isValidChar) : (Char.ofNat n).toNat = n := by
  rw [Char.ofNat, dif_pos h]
  unfold Char.ofNatAux Char.toNat UInt32.toNat
  simp

/-- Lower-casing never produces an upper-case (basic latin) character. -/
theorem toLower_isUpper_false (c : Char) : (Char.toLower c).isUpper = false := by
  unfold Char.toLower
  by_cases h : 65 ≤ c.toNat ∧ c.toNat ≤ 90
  · rw [if_pos h]
    have hv : (c.toNat + 32).isValidChar := Or.inl (by omega)
    rw [Char.ofNat, dif_pos hv]
    unfold Char.ofNatAux Char.isUpper
    simp [UInt32.le_def, BitVec.le_def, BitVec.ofNatLt]
    omega
  · rw [if_neg h]
    unfold Char.isUpper
    unfold Char.toNat at h
    simp [UInt32.le_def, BitVec.le_def]
    simp [UInt32.toNat] at h
    omega

/-- Lower-casing never produces a question mark. -/
theorem toLower_ne_questionmark (c : Char) (h : ¬(c = '?')) : ¬(Char.toLower c = '?') := by
  unfold Char.toLower
  by_cases hc : 65 ≤ c.toNat ∧ c.toNat ≤ 90
  · rw [if_pos hc]
    intro heq
    have hv : (c.toNat + 32).isValidChar := Or.inl (by omega)
    have h2 : (Char.ofNat (c.toNat + 32)).toNat = c.toNat + 32 := toNat_ofNat_valid _ hv
    rw [heq] at h2
    have h3 : ('?' : Char).toNat = 63 := rfl
    rw [h3] at h2
    omega
  · rw [if_neg hc]
    exact h

/-- Words produced by `split_words` are non-empty, contain no whitespace,
and inherit any property of the input characters. -/
theorem split_words_spec (P : Char → Prop) (cs : List Char) :
    ∀ cur : List Char, (∀ c ∈ cur, P c ∧ is_py_space c = false) →
    (∀ c ∈ cs, P c) →
    ∀ t ∈ split_words cur cs, t ≠ [] ∧ ∀ c ∈ t, P c ∧ is_py_space c = false := by
  induction cs with
  | nil =>
    intro cur hcur _ t ht
    rw [split_words] at ht
    by_cases hc : cur = []
    · rw [if_pos hc] at ht
      exact absurd ht (List.not_mem_nil t)
    · rw [if_neg hc] at ht
      rcases List.mem_cons.mp ht with h | h
      · subst h
        refine ⟨by simpa using hc, ?_⟩
        intro c hcm
        exact hcur c (List.mem_reverse.mp hcm)
      · exact absurd h (List.not_mem_nil t)
  | cons c0 cs2 ih =>
    intro cur hcur hcs t ht
    rw [split_words] at ht
    by_cases hw : is_py_space c0
    · rw [if_pos hw] at ht
      by_cases hc : cur = []
      · rw [if_pos hc] at ht
        exact ih [] (by simp) (fun c hm => hcs c (List.mem_cons_of_mem c0 hm)) t ht
      · rw [if_neg hc] at ht
        rcases List.mem_cons.mp ht with h | h
        · subst h
          refine ⟨by simpa using hc, ?_⟩
          intro c hcm
          exact hcur c (List.mem_reverse.mp hcm)
        · exact ih [] (by simp) (fun c hm => hcs c (List.mem_cons_of_mem c0 hm)) t h
    · rw [if_neg hw] at ht
      refine ih (c0 :: cur) ?_ (fun c hm => hcs c (List.mem_cons_of_mem c0 hm)) t ht
      intro c hm
      rcases List.mem_cons.mp hm with h | h
      · rw [h]
        exact ⟨hcs c0 (List.mem_cons_self c0 cs2), by simpa using hw⟩
      · exact hcur c h

/-- C8: the query loop normalizes each raw line by dropping every question
mark, lower-casing and whitespace-splitting before dispatching, and emits
each string of a returned answer list as its own output line before
continuing with the rest of the input. -/
theorem c8_normalize_then_dispatch (d : List String → Except Exc (List String))
    (line : String) (rest : List String) (ans : List String)
    (h : d (normalize_query line) = Except.ok ans) :
    query_loop_aux d (line :: rest) =
      ⟨ans ++ (query_loop_aux d rest).out, (query_loop_aux d rest).crash⟩ ∧
    ∀ t ∈ normalize_query line, t ≠ "" ∧
      ∀ c ∈ t.data, ¬(c = '?') ∧ c.isUpper = false ∧ is_py_space c = false := by
  constructor
  · rw [query_loop_aux, h]
  · intro t ht
    obtain ⟨w, hw, hmk⟩ := List.mem_map.mp ht
    have hcs : ∀ c ∈ (line.data.filter fun c => c ≠ '?').map Char.toLower,
        ¬(c = '?') ∧ c.isUpper = false := by
      intro c hc
      obtain ⟨a, ha, hla⟩ := List.mem_map.mp hc
      have hane : ¬(a = '?') := by
        have := List.of_mem_filter ha
        simpa using this
      exact ⟨hla ▸ toLower_ne_questionmark a hane, hla ▸ toLower_isUpper_false a⟩
    have hprops := split_words_spec (fun c => ¬(c = '?') ∧ c.isUpper = false) _ []
      (by simp) hcs w hw
    subst hmk
    refine ⟨?_, ?_⟩
    · intro hh
      exact hprops.1 (by simpa using congrArg String.data hh)
    · intro c hcm
      have := hprops.2 c hcm
      exact ⟨this.1.1, this.1.2, this.2⟩

/-- Witness for C8 at a concrete line and dispatcher. -/
theorem c8_normalize_then_dispatch_witness :
    query_loop_aux (fun _ => Except.ok ["hi"]) ["Why?"] =
      ⟨["hi"] ++ (query_loop_aux (fun _ => Except.ok ["hi"]) ([] : List String)).out,
       (query_loop_aux (fun _ => Except.ok ["hi"]) ([] : List String)).crash⟩ ∧
    ∀ t ∈ normalize_query "Why?", t ≠ "" ∧
      ∀ c ∈ t.data, ¬(c = '?') ∧ c.isUpper = false ∧ is_py_space c = false :=
  c8_normalize_then_dispatch (fun _ => Except.ok ["hi"]) "Why?" [] ["hi"] rfl

/-- Counterexample to C1 as stated: in an environment where the birth-date
regex finds no field, the `AttributeError` raised by the handler is not
caught by the query loop (whose `except` clause catches only
`KeyboardInterrupt` and `EOFError`); the run aborts with the exception,
prints no message for that query, never reads the following `bye` line and
never prints the farewell. -/
theorem c1_uncaught_extraction_failure :
    query_loop no_match_env ["when was ada lovelace born?", "bye"] =
      ⟨[welcome], some (Exc.attributeError "Page infobox has no birth information (at least none in xxxx-xx-xx format)")⟩ := by
  rfl

/-- C1 (amended): an extractor-level failure is not converted into a
user-visible message: any exception other than `KeyboardInterrupt` and
`EOFError` raised while dispatching a query propagates out of the query
loop, which terminates at once — without printing anything for that query,
without the farewell, and without reading the remaining input. -/
theorem c1_failures_abort_loop (d : List String → Except Exc (List String))
    (line : String) (rest : List String) (e : Exc)
    (h : d (normalize_query line) = Except.error e)
    (hk : e ≠ Exc.keyboardInterrupt) (he : e ≠ Exc.eofError) :
    query_loop_aux d (line :: rest) = ⟨[], some e⟩ := by
  cases e with
  | keyboardInterrupt => exact absurd rfl hk
  | eofError => exact absurd rfl he
  | lookupError msg => rw [query_loop_aux, h]
  | attributeError msg => rw [query_loop_aux, h]
  | indexError => rw [query_loop_aux, h]

/-- Witness for C1 (amended) on the dispatcher of the program. -/
theorem c1_failures_abort_loop_witness :
    query_loop_aux (search_pa_list (pa_list no_match_env)) ["when was ada lovelace born?", "bye"] =
      ⟨[], some (Exc.attributeError "Page infobox has no birth information (at least none in xxxx-xx-xx format)")⟩ :=
  c1_failures_abort_loop (search_pa_list (pa_list no_match_env))
    "when was ada lovelace born?" ["bye"]
    (Exc.attributeError "Page infobox has no birth information (at least none in xxxx-xx-xx format)")
    rfl (by decide) (by decide)

/-- Counterexample to C9 as stated: a query result other than the matched
"bye" pattern — here a failed polar-radius extraction — also terminates
the query loop, and does so without the farewell. -/
theorem c9_non_bye_terminates_loop :
    (query_loop no_match_env ["what is the polar radius of pluto?", "bye"]).crash =
      some (Exc.attributeError "Page infobox has no polar radius information") ∧
    farewell ∉ (query_loop no_match_env ["what is the polar radius of pluto?", "bye"]).out := by
  constructor
  · rfl
  · decide

/-- C9 (amended): a query line normalizing to `["bye"]` matches the table's
"bye" pattern, whose handler raises `KeyboardInterrupt`; the loop catches
it, prints no answer for that query and exactly one farewell, and stops
reading input.  A successfully returned answer list never terminates the
loop, but a dispatch ending in any other uncaught exception does (then
without the farewell). -/
theorem c9_bye_terminates :
    (∀ (env : Env) (rest : List String),
      query_loop env ("bye" :: rest) = ⟨[welcome, farewell], none⟩) ∧
    (∀ (d : List String → Except Exc (List String)) (line : String) (rest : List String) (ans : List String),
      d (normalize_query line) = Except.ok ans →
      (query_loop_aux d (line :: rest)).crash = (query_loop_aux d rest).crash) ∧
    (∀ (env : Env) (line : String) (rest : List String) (msg : String),
      search_pa_list (pa_list env) (normalize_query line) = Except.error (Exc.attributeError msg) →
      query_loop env (line :: rest) = ⟨[welcome], some (Exc.attributeError msg)⟩) := by
  refine ⟨?_, ?_, ?_⟩
  · intro env rest
    rfl
  · intro d line rest ans h
    rw [query_loop_aux, h]
  · intro env line rest msg h
    unfold query_loop
    rw [query_loop_aux, h]

/-- Witness for C9 (amended): the bye scenario, an ordinary answered query,
and a crashing extraction, each at concrete inputs. -/
theorem c9_bye_terminates_witness :
    query_loop no_match_env ["bye"] = ⟨[welcome, farewell], none⟩ ∧
    (query_loop_aux (fun _ => Except.ok ["fine"]) ["how are you"]).crash =
      (query_loop_aux (fun _ => Except.ok ["fine"]) ([] : List String)).crash ∧
    query_loop no_match_env ["what is the polar radius of pluto?"] =
      ⟨[welcome], some (Exc.attributeError "Page infobox has no polar radius information")⟩ :=
  ⟨c9_bye_terminates.1 no_match_env [],
   c9_bye_terminates.2.1 (fun _ => Except.ok ["fine"]) "how are you" [] ["fine"] rfl,
   c9_bye_terminates.2.2 no_match_env "what is the polar radius of pluto?" [] _ rfl⟩

/-- The birth-date handler depends on the environment only through page
search, page html, infobox texts and the birth-date regex. -/
theorem birth_date_congr (env1 env2 : Env)
    (hs : env1.search_results = env2.search_results)
    (hh : env1.page_html = env2.page_html)
    (hi : env1.infobox_texts = env2.infobox_texts)
    (hr : ∀ t, env1.re_search birth_pattern t = env2.re_search birth_pattern t)
    (ms : List String) : birth_date env1 ms = birth_date env2 ms := by
  unfold birth_date get_birth_date get_page_html get_first_infobox_text get_match
  rw [hs, hh, hi]
  simp only [hr]

/-- The polar-radius handler depends on the environment only through page
search, page html, infobox texts and the polar-radius regex. -/
theorem polar_radius_congr (env1 env2 : Env)
    (hs : env1.search_results = env2.search_results)
    (hh : env1.page_html = env2.page_html)
    (hi : env1.infobox_texts = env2.infobox_texts)
    (hr : ∀ t, env1.re_search radius_pattern t = env2.re_search radius_pattern t)
    (ms : List String) : polar_radius env1 ms = polar_radius env2 ms := by
  unfold polar_radius get_polar_radius get_page_html get_first_infobox_text get_match
  rw [hs, hh, hi]
  simp only [hr]

/-- C10: the action table of the program consists of exactly the three
declared entries, in order — birth date, polar radius, bye — and the
dispatcher's behaviour depends on the environment only through the
collaborators those three handlers use: it is unchanged under any
modification of the regex engine away from the birth-date and polar-radius
regexes, so the population, official-language and birth-place extractions
are never invoked. -/
theorem c10_three_entry_table :
    (∀ env : Env, (pa_list env).map Prod.fst =
      [["when", "was", "%", "born"],
       ["what", "is", "the", "polar", "radius", "of", "%"],
       ["bye"]]) ∧
    (∀ env1 env2 : Env,
      env1.search_results = env2.search_results →
      env1.page_html = env2.page_html →
      env1.infobox_texts = env2.infobox_texts →
      (∀ t, env1.re_search birth_pattern t = env2.re_search birth_pattern t) →
      (∀ t, env1.re_search radius_pattern t = env2.re_search radius_pattern t) →
      ∀ src, search_pa_list (pa_list env1) src = search_pa_list (pa_list env2) src) := by
  constructor
  · intro env
    rfl
  · intro env1 env2 hs hh hi hb hr src
    have hbd : birth_date env1 = birth_date env2 :=
      funext (birth_date_congr env1 env2 hs hh hi hb)
    have hpr : polar_radius env1 = polar_radius env2 :=
      funext (polar_radius_congr env1 env2 hs hh hi hr)
    unfold pa_list
    rw [hbd, hpr]

/-- Witness for C10: two concrete environments differing exactly on the
population regex produce the same dispatch result. -/
theorem c10_three_entry_table_witness :
    search_pa_list (pa_list no_match_env) ["what", "is", "the", "polar", "radius", "of", "pluto"] =
      search_pa_list (pa_list pop_env) ["what", "is", "the", "polar", "radius", "of", "pluto"] :=
  c10_three_entry_table.2 no_match_env pop_env rfl rfl rfl
    (fun t => by
      have hne : ¬(birth_pattern = population_pattern) := by decide
      simp [no_match_env, pop_env, hne])
    (fun t => by
      have hne : ¬(radius_pattern = population_pattern) := by decide
      simp [no_match_env, pop_env, hne])
    ["what", "is", "the", "polar", "radius", "of", "pluto"]
